import Mathlib

/-!
Verification development for the report normalization and aggregation
pipeline of the ConvertFormat class (ConvertFormat.py).

The embedding translates the pipeline into executable Lean definitions:

* DataFrame and CSV cell values become the inductive type PyVal
  (a Python int, a string, or a missing value NaN / None, which pandas
  treats interchangeably for object columns when writing and comparing).
* A CanonicalRecord row of the output schema becomes the structure Row,
  with one field per output column.
* The in-memory accumulator (the dfs dictionary, year to list of
  single-row dataframes) and the per-year consolidated files both become
  association lists from year to lists of rows, updated in insertion
  order exactly as a Python dict is.
* Writing a dataframe with to_csv and reading it back with read_csv is
  modelled by the cell transformation roundTrip: a cell that serializes
  to a string of digits is re-read as an integer (pandas type inference,
  which strips leading zeros), empty strings and the literal NA are
  re-read as NaN, and every other cell survives unchanged.  No produced
  cell serializes to a float or negative literal, so those inference
  cases are not modelled.
* Exceptions become Except results where the source lets them escape
  (the to_datetime call in process_file) and explicit skip branches
  where the source catches them (EmptyDataError, ParserError).
* pd.to_datetime is modelled by a parser for the month/day/year date
  strings exercised by this pipeline; every string outside that shape
  stands for an input on which to_datetime raises.
-/

/-- A cell value as pandas sees it: a Python integer, a string, or a
missing value (None and NaN are identified, as pandas does when writing
to CSV and when comparing rows for duplicates). -/
inductive PyVal where
  | intV (n : Int)
  | strV (s : String)
  | nanV
deriving DecidableEq, Repr

open PyVal

/-- One row of the output schema (the data_df dictionary built in
process_file, lines 86 to 98 of the source): one field per column, in
the same column order. -/
structure Row where
  partNumber : PyVal
  revision : PyVal
  serialNumber : PyVal
  buildDate : PyVal
  assembler : PyVal
  testDate : PyVal
  rebuildDate : PyVal
  testOperator : PyVal
  testResult : PyVal
  comments : PyVal
  testNumber : PyVal
deriving DecidableEq, Repr

/-- The accumulator self.dfs: a mapping from year to the accumulated
records for that year, in insertion order.  Each element of the Python
list is a single-row dataframe, so a bucket is simply a list of rows. -/
abbrev Dfs := List (Nat × List Row)

/-- The output directory: a mapping from year to the content of the
consolidated file named after that year. -/
abbrev FS := List (Nat × List Row)

/-- Lookup in a Python-dict-like association list. -/
def alist_get : List (Nat × List Row) → Nat → Option (List Row)
  | [], _ => none
  | p :: ps, y => if p.1 = y then some p.2 else alist_get ps y

/-- Update in a Python-dict-like association list: an existing key keeps
its position, a new key is appended (Python dict insertion order). -/
def alist_set : List (Nat × List Row) → Nat → List Row → List (Nat × List Row)
  | [], y, b => [(y, b)]
  | p :: ps, y, b => if p.1 = y then (y, b) :: ps else p :: alist_set ps y b

/-! ### String helpers modelling the Python string operations -/

/-- Full split of a character list on the two-character separator
colon-space, as the Python expression row[0].split(like in line 59 of
the source) performs. -/
def splitColonSpace : List Char → List (List Char)
  | [] => [[]]
  | ':' :: ' ' :: rest => [] :: splitColonSpace rest
  | c :: rest =>
      match splitColonSpace rest with
      | [] => [[c]]
      | p :: ps => (c :: p) :: ps

/-- Split of a character list on a single character (used for the slash
in date strings). -/
def splitOnCharList (sep : Char) : List Char → List (List Char)
  | [] => [[]]
  | c :: rest =>
      if c = sep then [] :: splitOnCharList sep rest
      else
        match splitOnCharList sep rest with
        | [] => [[c]]
        | p :: ps => (c :: p) :: ps

/-- Value of a nonempty all-digit character list, and none otherwise. -/
def digitsVal (cs : List Char) : Option Nat :=
  if cs ≠ [] ∧ cs.all Char.isDigit then
    some (cs.foldl (fun a c => 10 * a + (c.toNat - 48)) 0)
  else none

/-- Decimal digits of a natural number, with fuel (20 digits is ample
for every number this pipeline produces); models Python str(). -/
def natDigitsAux : Nat → Nat → List Char
  | 0, _ => []
  | fuel + 1, n =>
      if n < 10 then [Char.ofNat (48 + n)]
      else natDigitsAux fuel (n / 10) ++ [Char.ofNat (48 + n % 10)]

/-- Decimal string of a natural number. -/
def natToStr (n : Nat) : String := String.mk (natDigitsAux 20 n)

/-- Python str.zfill on the character list: left-pad with zeros to the
given total width, keeping a leading sign character in front of the
padding; a list at least as wide as the target is returned unchanged. -/
def zfillChars (cs : List Char) (w : Nat) : List Char :=
  if w ≤ cs.length then cs
  else if cs.headD ' ' = '+' ∨ cs.headD ' ' = '-' then
    cs.headD ' ' :: (List.replicate (w - cs.length) '0' ++ cs.tail)
  else List.replicate (w - cs.length) '0' ++ cs

/-- Python str.zfill. -/
def zfill (s : String) (w : Nat) : String := String.mk (zfillChars s.data w)

/-! ### Dates -/

/-- A parsed calendar date. -/
structure PDate where
  month : Nat
  day : Nat
  year : Nat
deriving DecidableEq, Repr

/-- Models pd.to_datetime on the date strings this pipeline exercises:
a month/day/year string parses (pandas infers month first on such
strings), with a four-digit year; any other string stands for an input
on which to_datetime raises and is mapped to none. -/
def parseDate (s : String) : Option PDate :=
  match splitOnCharList '/' s.data with
  | [m, d, y] =>
      match digitsVal m, digitsVal d, digitsVal y with
      | some mv, some dv, some yv =>
          if 1 ≤ mv ∧ mv ≤ 12 ∧ 1 ≤ dv ∧ dv ≤ 31 ∧ y.length = 4 then
            some ⟨mv, dv, yv⟩
          else none
      | _, _, _ => none
  | _ => none

/-- Left-pad the decimal form of a number with zeros to width 2. -/
def pad2 (n : Nat) : String := zfill (natToStr n) 2

/-- strftime with the month/day/year format used at line 79. -/
def formatDate (d : PDate) : String :=
  pad2 d.month ++ "/" ++ pad2 d.day ++ "/" ++ zfill (natToStr d.year) 4

/-! ### Header extraction (lines 56 to 76 of the source) -/

/-- Insert into the category dictionary: a repeated category overwrites
its value in place, a new category is appended (Python dict). -/
def dictInsert (d : List (String × Option String)) (k : String) (v : Option String) :
    List (String × Option String) :=
  if d.any (fun p => p.1 = k) then
    d.map (fun p => if p.1 = k then (k, v) else p)
  else d ++ [(k, v)]

/-- The category dictionary built from the first header lines: each line
is split on colon-space; the part before the first separator is the
category and the part between the first and second separators is the
value, absent when the line has no separator (lines 57 to 62). -/
def categoryDict (lines : List String) : List (String × Option String) :=
  lines.foldl
    (fun d line =>
      let parts := splitColonSpace line.data
      let category := String.mk (parts.headD [])
      let value : Option String :=
        match parts with
        | _ :: v :: _ => some (String.mk v)
        | _ => none
      dictInsert d category value)
    []

/-- The positional value column of header_df_final: the dictionary
values in insertion order; positional extraction indexes this list. -/
def headerValues (lines : List String) : List (Option String) :=
  (categoryDict lines).map (fun p => p.2)

/-- Python str() applied to a header cell: None prints as the four
characters None. -/
def pyStrCell : Option String → String
  | some s => s
  | none => "None"

/-- A header cell as a dataframe value: None becomes a missing value. -/
def cellToPyVal : Option String → PyVal
  | some s => strV s
  | none => nanV

/-- The raw serial field of line 71: the cell at index 3 rendered with
str() when the header has more than 3 rows, and the empty string
otherwise. -/
def serialField (vals : List (Option String)) : String :=
  match vals.get? 3 with
  | some c => pyStrCell c
  | none => ""

/-- The formatted serial number of line 72: str() of the raw field,
zero-filled to width 7. -/
def formatted_serial_num (vals : List (Option String)) : String :=
  zfill (serialField vals) 7

/-- The raw test-date field of line 74: the cell at index 1 when the
header has more than one row, and the literal empty string otherwise. -/
def dateField (vals : List (Option String)) : Option String :=
  match vals.get? 1 with
  | some c => c
  | none => some ""

/-- pd.to_datetime applied to the raw date field followed by strftime
and year extraction: a None field (to_datetime yields NaT, on which
strftime raises) and an unparseable string both fail. -/
def parseDateField : Option String → Option PDate
  | some s => parseDate s
  | none => none

/-- The test-operator field of line 75 as stored in the output row. -/
def testOperatorCell (vals : List (Option String)) : PyVal :=
  match vals.get? 4 with
  | some c => cellToPyVal c
  | none => strV ""

/-- The overall test-result field of line 76: the last header cell, and
the empty string for an empty header. -/
def testResultCell (vals : List (Option String)) : PyVal :=
  match vals.getLast? with
  | some c => cellToPyVal c
  | none => strV ""

/-- The file-level comments of lines 81 to 84: a fixed phrase when the
overall result is the literal PASSED and FAILED otherwise. -/
def comments_of (tr : PyVal) : String :=
  if tr = strV "PASSED" then "NEEDS TO GO TO FINAL INSPECTION" else "FAILED"

/-- The per-row comments column computed on the body dataframe at line
66 from the result column; it is attached to the body dataframe only
and never reaches the accumulator. -/
def body_Comments (results : List String) : List String :=
  results.map (fun x =>
    if x = "PASSED" then "NEEDS TO GO TO FINAL INSPECTION" else "FAILED")

/-- The single summary row built in lines 86 to 100 from the header
fields and the parsed test date. -/
def mkRow (vals : List (Option String)) (d : PDate) : Row :=
  { partNumber := strV "2AC65A-001"
    revision := strV "F"
    serialNumber := strV (formatted_serial_num vals)
    buildDate := strV ""
    assembler := strV "NA"
    testDate := strV (formatDate d)
    rebuildDate := strV "NA"
    testOperator := testOperatorCell vals
    testResult := testResultCell vals
    comments := strV (comments_of (testResultCell vals))
    testNumber := strV "" }

/-! ### The accumulator update (lines 102 to 121) -/

/-- Count of rows in a bucket whose serial number equals the given
value (the serial_number_count dictionary of lines 112 to 118). -/
def countSerial (bucket : List Row) (s : PyVal) : Nat :=
  (bucket.filter (fun r => decide (r.serialNumber = s))).length

/-- The reassignment of lines 120 to 121: every row of the bucket gets
as Test Number the count of rows sharing its serial number. -/
def recomputeTestNumbers (bucket : List Row) : List Row :=
  bucket.map (fun r => { r with testNumber := intV (countSerial bucket r.serialNumber) })

/-! ### One input file and process_file -/

/-- Whether a file name ends in the recognized extension. -/
def endsWithCsv (s : String) : Bool :=
  match s.data.reverse with
  | 'v' :: 's' :: 'c' :: '.' :: _ => true
  | _ => false

/-- One on-disk report file.  The two Boolean flags record whether the
initial read_csv of the body raises EmptyDataError or ParserError,
failure modes of the CSV reader that depend on raw bytes outside this
abstraction; sizeZero records the getsize test of line 52. -/
structure ReportFile where
  name : String
  emptyData : Bool
  parserError : Bool
  sizeZero : Bool
  headerLines : List String
  bodyResults : List String
deriving DecidableEq, Repr

/-- process_file (lines 29 to 121): a non-CSV name falls through, an
EmptyDataError or ParserError is caught and the file skipped, a
zero-size file is skipped, and otherwise the header is parsed, the body
comments column is computed (and dropped), the test date is parsed by
to_datetime - an unparseable date raises, which no enclosing handler
catches - and on success the summary row is appended to its year bucket
and every Test Number in that bucket is recomputed. -/
def process_file (dfs : Dfs) (f : ReportFile) : Except String Dfs :=
  if endsWithCsv f.name then
    if f.emptyData then .ok dfs
    else if f.parserError then .ok dfs
    else if f.sizeZero then .ok dfs
    else
      let vals := headerValues f.headerLines
      let _bodyAnnotations := body_Comments f.bodyResults
      match parseDateField (dateField vals) with
      | none => .error "DateParseError"
      | some d =>
          let bucket := (alist_get dfs d.year).getD [] ++ [mkRow vals d]
          .ok (alist_set dfs d.year (recomputeTestNumbers bucket))
  else .ok dfs

/-- process_directory (lines 123 to 133): the files encountered by the
walk are processed in order; an exception escaping process_file (the
date parse) propagates and aborts the walk. -/
def process_files (dfs : Dfs) : List ReportFile → Except String Dfs
  | [] => .ok dfs
  | f :: fs =>
      match process_file dfs f with
      | .ok d => process_files d fs
      | .error e => .error e

/-- Whether a run completed without an escaping exception. -/
def exceptIsOk : Except String Dfs → Bool
  | .ok _ => true
  | .error _ => false

/-! ### CSV serialization round trip -/

/-- to_csv followed by read_csv on one cell: an integer survives, a
missing value writes as an empty field and reads back as NaN, a string
of digits is re-read as an integer by pandas type inference (leading
zeros are lost), the empty string and the literal NA read back as NaN
(NA is a default pandas missing-value marker), and every other string
survives.  No cell produced by this pipeline serializes to a float or a
signed literal, so those inference cases do not arise. -/
def roundTrip : PyVal → PyVal
  | intV n => intV n
  | nanV => nanV
  | strV s =>
      if s = "" then nanV
      else if s = "NA" then nanV
      else
        match digitsVal s.data with
        | some n => intV (Int.ofNat n)
        | none => strV s

/-- The round trip applied to every cell of a row. -/
def roundTripRow (r : Row) : Row :=
  { partNumber := roundTrip r.partNumber
    revision := roundTrip r.revision
    serialNumber := roundTrip r.serialNumber
    buildDate := roundTrip r.buildDate
    assembler := roundTrip r.assembler
    testDate := roundTrip r.testDate
    rebuildDate := roundTrip r.rebuildDate
    testOperator := roundTrip r.testOperator
    testResult := roundTrip r.testResult
    comments := roundTrip r.comments
    testNumber := roundTrip r.testNumber }

/-- pd.read_csv of a previously written file. -/
def readCsvFile (rows : List Row) : List Row := rows.map roundTripRow

/-! ### The merge-on-save (save_to_csv, lines 135 to 156) -/

/-- drop_duplicates with an accumulated seen list: pandas keeps the
first occurrence of each full row. -/
def drop_dup_aux (seen : List Row) : List Row → List Row
  | [] => []
  | r :: rs =>
      if r ∈ seen then drop_dup_aux seen rs
      else r :: drop_dup_aux (r :: seen) rs

/-- pd.DataFrame.drop_duplicates on full-row equality, keeping first
occurrences (line 152). -/
def drop_duplicates (l : List Row) : List Row := drop_dup_aux [] l

/-- The dataframe written at line 154 for one year: the concatenated
batch alone when no consolidated file exists, and otherwise the read
of the existing file concatenated with the batch, duplicates dropped. -/
def merged_for (fs : FS) (y : Nat) (bucket : List Row) : List Row :=
  match alist_get fs y with
  | some existing => drop_duplicates (readCsvFile existing ++ bucket)
  | none => bucket

/-! ### Reconciliation (adding_serial_number, lines 158 to 201) -/

/-- pd.to_numeric with coercion on one cell: integers survive, digit
strings become integers, everything else becomes NaN.  No serial cell
this pipeline writes is a float or signed literal. -/
def toNumericCoerce : PyVal → PyVal
  | intV n => intV n
  | nanV => nanV
  | strV s =>
      match digitsVal s.data with
      | some n => intV (Int.ofNat n)
      | none => nanV

/-- Lines 163 to 172: read the file, coerce the serial column to
numeric, and drop the rows whose serial value is missing after the
coercion (the astype call to the nullable integer type is the identity
on what remains). -/
def read_coerced (file : List Row) : List Row :=
  ((readCsvFile file).map
      (fun r => { r with serialNumber := toNumericCoerce r.serialNumber })).filter
    (fun r => match r.serialNumber with | nanV => false | _ => true)

/-- The set of serial numbers of the coerced persisted rows
(line 175). -/
def existing_serials (file : List Row) : List PyVal :=
  (read_coerced file).map Row.serialNumber

/-- A row holding only a serial number, every other column missing: the
shape concat gives a one-column missing dataframe (lines 186 to 187). -/
def blankRow (v : PyVal) : Row :=
  { partNumber := nanV
    revision := nanV
    serialNumber := v
    buildDate := nanV
    assembler := nanV
    testDate := nanV
    rebuildDate := nanV
    testOperator := nanV
    testResult := nanV
    comments := nanV
    testNumber := nanV }

/-- The inner loop of lines 179 to 187 over the single-row entries of
one year bucket: a serial absent from the persisted set (computed once,
before the loop) is appended as a blank row. -/
def insertMissingRows (ex : List PyVal) (rows : List Row) (df : List Row) : List Row :=
  match rows with
  | [] => df
  | r :: rs =>
      insertMissingRows ex rs
        (if r.serialNumber ∈ ex then df else df ++ [blankRow r.serialNumber])

/-- The outer loop of line 178: the insertion iterates over the buckets
of every year in the accumulator, whichever year the file belongs to. -/
def insertMissing (dfs : Dfs) (ex : List PyVal) (df : List Row) : List Row :=
  match dfs with
  | [] => df
  | p :: ps => insertMissing ps ex (insertMissingRows ex p.2 df)

/-- Whether every value of the column is a Python integer. -/
def allIntVals (l : List PyVal) : Bool :=
  l.all (fun v => match v with | intV _ => true | _ => false)

/-- Whether every value of the column is a string. -/
def allStrVals (l : List PyVal) : Bool :=
  l.all (fun v => match v with | strV _ => true | _ => false)

/-- Strict code-point order on character lists (Python string order). -/
def lexLt : List Char → List Char → Bool
  | [], [] => false
  | [], _ :: _ => true
  | _ :: _, [] => false
  | a :: as, b :: bs =>
      if a.toNat < b.toNat then true
      else if b.toNat < a.toNat then false
      else lexLt as bs

/-- Insert a row into a sorted list, after the rows it does not strictly
precede. -/
def insortBy (le : Row → Row → Bool) (r : Row) : List Row → List Row
  | [] => [r]
  | x :: xs => if le x r then x :: insortBy le r xs else r :: x :: xs

/-- Insertion sort; stands in for the sort_values permutation (the
claims under study never depend on the relative order of equal keys). -/
def sortRowsBy (le : Row → Row → Bool) : List Row → List Row
  | [] => []
  | r :: rs => insortBy le r (sortRowsBy le rs)

/-- Integer sort key of a serial cell (only applied to all-integer
columns). -/
def intKey (v : PyVal) : Int :=
  match v with
  | intV n => n
  | _ => 0

/-- String sort key of a serial cell (only applied to all-string
columns). -/
def strKey (v : PyVal) : String :=
  match v with
  | strV s => s
  | _ => ""

/-- sort_values on the serial column (lines 191 to 195): an all-integer
or all-string column sorts ascending; a column mixing Python integers
and strings makes the underlying comparison raise, which the inner
handler catches - modelled as none, upon which the dataframe is left
unsorted. -/
def trySort (rows : List Row) : Option (List Row) :=
  if allIntVals (rows.map Row.serialNumber) then
    some (sortRowsBy (fun a b => decide (intKey a.serialNumber ≤ intKey b.serialNumber)) rows)
  else if allStrVals (rows.map Row.serialNumber) then
    some (sortRowsBy (fun a b => !(lexLt (strKey b.serialNumber).data (strKey a.serialNumber).data)) rows)
  else none

/-- The reconciled dataframe before the sort attempt: the coerced
persisted rows followed by a blank row for every accumulator serial
missing from the persisted set. -/
def reconcile_pre_sort (dfs : Dfs) (file : List Row) : List Row :=
  insertMissing dfs (existing_serials file) (read_coerced file)

/-- The body of adding_serial_number when no ValueError escapes the
outer try: reconcile, then sort if the sort does not raise, and write
the result back (lines 162 to 198). -/
def adding_serial_number_core (dfs : Dfs) (file : List Row) : List Row :=
  match trySort (reconcile_pre_sort dfs file) with
  | some sorted => sorted
  | none => reconcile_pre_sort dfs file

/-- adding_serial_number (lines 158 to 201).  The Boolean records
whether a ValueError is raised inside the outer try block (a failure
mode of the pandas readers and casts that depends on data outside this
abstraction); the outer handler catches it, skips the reconciliation,
and leaves the file as written by the merge. -/
def adding_serial_number (valueErrorRaised : Bool) (dfs : Dfs) (file : List Row) :
    List Row :=
  if valueErrorRaised then file else adding_serial_number_core dfs file

/-- One iteration of the save loop: write the merged dataframe for one
year, then reconcile the just-written file against the whole
accumulator and write the result back. -/
def save_year_step (dfs : Dfs) (acc : FS) (p : Nat × List Row) : FS :=
  alist_set (alist_set acc p.1 (merged_for acc p.1 p.2)) p.1
    (adding_serial_number_core dfs (merged_for acc p.1 p.2))

/-- save_to_csv (lines 135 to 156): for each year of the accumulator in
insertion order, write the merged dataframe for that year and then
reconcile the just-written file against the whole accumulator. -/
def save_to_csv (dfs : Dfs) (fs : FS) : FS :=
  dfs.foldl (save_year_step dfs) fs

/-! ### Stated invariants -/

/-- The Test Number invariant of the accumulator: every record of every
year bucket carries as Test Number the count of records of that bucket
sharing its serial number string. -/
def TNInv (dfs : Dfs) : Prop :=
  ∀ y r, r ∈ (alist_get dfs y).getD [] →
    r.testNumber = intV (countSerial ((alist_get dfs y).getD []) r.serialNumber)

/-- Whether a cell holds a Python integer. -/
def isIntVal : PyVal → Bool
  | intV _ => true
  | _ => false

/-- Whether a cell holds a string (a textual value). -/
def isStrVal : PyVal → Bool
  | strV _ => true
  | _ => false

/-! ### Concrete sample inputs used by witnesses and counterexamples -/

/-- A wellformed report: serial 42, date in 2023, result PASSED. -/
def hdrA : List String :=
  ["Test Report: ATP", "Test Date: 01/05/2023", "Part: 2AC65A-001",
   "Serial Number: 42", "Operator: JS", "Overall Result: PASSED"]

/-- The file carrying hdrA. -/
def sampleFileA : ReportFile :=
  { name := "a.csv", emptyData := false, parserError := false, sizeZero := false,
    headerLines := hdrA, bodyResults := ["PASSED", "FAILED"] }

/-- A second report for serial 42 in 2023, result FAILED. -/
def hdrA2 : List String :=
  ["Test Report: ATP", "Test Date: 02/10/2023", "Part: 2AC65A-001",
   "Serial Number: 42", "Operator: KL", "Overall Result: FAILED"]

/-- The file carrying hdrA2. -/
def sampleFileA2 : ReportFile :=
  { name := "a2.csv", emptyData := false, parserError := false, sizeZero := false,
    headerLines := hdrA2, bodyResults := ["FAILED"] }

/-- A third report for serial 42 in 2023. -/
def hdrA3 : List String :=
  ["Test Report: ATP", "Test Date: 03/15/2023", "Part: 2AC65A-001",
   "Serial Number: 42", "Operator: MN", "Overall Result: PASSED"]

/-- The file carrying hdrA3. -/
def sampleFileA3 : ReportFile :=
  { name := "a3.csv", emptyData := false, parserError := false, sizeZero := false,
    headerLines := hdrA3, bodyResults := ["PASSED"] }

/-- A report for serial 77 tested in 2024. -/
def hdrB : List String :=
  ["Test Report: ATP", "Test Date: 04/01/2024", "Part: 2AC65A-001",
   "Serial Number: 77", "Operator: JS", "Overall Result: PASSED"]

/-- The file carrying hdrB. -/
def sampleFileB : ReportFile :=
  { name := "b.csv", emptyData := false, parserError := false, sizeZero := false,
    headerLines := hdrB, bodyResults := ["PASSED"] }

/-- A report whose serial-number line has no colon-space separator, so
its category gets value None; everything else is wellformed and the
file processes to completion. -/
def hdrNoSep : List String :=
  ["Test Report: ATP", "Test Date: 01/05/2023", "Part: 2AC65A-001",
   "Serial Number", "Operator: JS", "Overall Result: PASSED"]

/-- The file carrying hdrNoSep. -/
def fileNoSep : ReportFile :=
  { name := "n.csv", emptyData := false, parserError := false, sizeZero := false,
    headerLines := hdrNoSep, bodyResults := ["PASSED"] }

/-- A report whose test-date field to_datetime cannot parse. -/
def hdrBadDate : List String :=
  ["Test Report: ATP", "Test Date: garbage", "Part: 2AC65A-001",
   "Serial Number: 43", "Operator: JS", "Overall Result: FAILED"]

/-- The file carrying hdrBadDate. -/
def badDateFile : ReportFile :=
  { name := "bad.csv", emptyData := false, parserError := false, sizeZero := false,
    headerLines := hdrBadDate, bodyResults := ["FAILED"] }

/-- A zero-byte file: the body read raises EmptyDataError. -/
def emptyFile : ReportFile :=
  { name := "empty.csv", emptyData := true, parserError := false, sizeZero := true,
    headerLines := [], bodyResults := [] }

/-- The accumulator after processing sampleFileA alone. -/
def sampleDfs : Dfs :=
  match process_files [] [sampleFileA] with
  | .ok d => d
  | .error _ => []

/-- The accumulator after processing the three serial-42 files. -/
def sampleDfs3 : Dfs :=
  match process_files [] [sampleFileA, sampleFileA2, sampleFileA3] with
  | .ok d => d
  | .error _ => []

/-- The accumulator after a run covering the years 2023 and 2024. -/
def sampleDfsTwoYears : Dfs :=
  match process_files [] [sampleFileA, sampleFileB] with
  | .ok d => d
  | .error _ => []

/-- A pre-existing consolidated file for 2023 holding one row whose
serial number is the non-numeric string 0000ABC (the shape a previous
run produces for a report whose header serial field was ABC). -/
def fsWithAlphaSerial : FS := [(2023, [blankRow (strV "0000ABC")])]

/-- The record process_file builds from sampleFileA (Test Number 1
after the recomputation). -/
def sampleRowA : Row :=
  { partNumber := strV "2AC65A-001"
    revision := strV "F"
    serialNumber := strV "0000042"
    buildDate := strV ""
    assembler := strV "NA"
    testDate := strV "01/05/2023"
    rebuildDate := strV "NA"
    testOperator := strV "JS"
    testResult := strV "PASSED"
    comments := strV "NEEDS TO GO TO FINAL INSPECTION"
    testNumber := intV 1 }

/-! ### Association list lemmas -/

lemma alist_get_set_self (l : List (Nat × List Row)) (y : Nat) (b : List Row) :
    alist_get (alist_set l y b) y = some b := by
  induction l with
  | nil => simp [alist_set, alist_get]
  | cons p ps ih =>
      by_cases h : p.1 = y
      · simp [alist_set, alist_get, h]
      · simp [alist_set, alist_get, h, ih]

lemma alist_get_set_ne (l : List (Nat × List Row)) (y y' : Nat) (b : List Row)
    (h : y' ≠ y) : alist_get (alist_set l y b) y' = alist_get l y' := by
  have hne : ¬ (y = y') := fun hc => h hc.symm
  induction l with
  | nil => simp [alist_set, alist_get, hne]
  | cons p ps ih =>
      by_cases hp : p.1 = y
      · subst hp
        have hp' : ¬ (p.1 = y') := fun hc => h hc.symm
        simp [alist_set, alist_get, hp']
      · simp [alist_set, alist_get, hp, ih]

/-! ### Test Number lemmas -/

lemma length_filter_map_serial (f : Row → Row)
    (hf : ∀ r, (f r).serialNumber = r.serialNumber) (b : List Row) (s : PyVal) :
    ((b.map f).filter (fun r => decide (r.serialNumber = s))).length =
      (b.filter (fun r => decide (r.serialNumber = s))).length := by
  induction b with
  | nil => rfl
  | cons r rs ih =>
      simp only [List.map_cons, List.filter_cons, hf r]
      by_cases h : r.serialNumber = s <;> simp [h, ih]

lemma countSerial_recompute (b : List Row) (s : PyVal) :
    countSerial (recomputeTestNumbers b) s = countSerial b s := by
  unfold countSerial recomputeTestNumbers
  exact length_filter_map_serial
    (fun r => { r with testNumber := intV (countSerial b r.serialNumber) })
    (fun r => rfl) b s

lemma recompute_inv (b : List Row) :
    ∀ r ∈ recomputeTestNumbers b,
      r.testNumber = intV (countSerial (recomputeTestNumbers b) r.serialNumber) := by
  intro r hr
  unfold recomputeTestNumbers at hr
  rcases List.mem_map.mp hr with ⟨r0, _, rfl⟩
  show intV (countSerial b r0.serialNumber) = _
  rw [countSerial_recompute]

lemma TNInv_nil : TNInv [] := by
  intro y r hr
  exact absurd hr (by simp [alist_get])

lemma process_file_skip (dfs : Dfs) (f : ReportFile)
    (hcase : endsWithCsv f.name = false ∨ f.emptyData = true ∨
      f.parserError = true ∨ f.sizeZero = true) :
    process_file dfs f = .ok dfs := by
  cases hcsv : endsWithCsv f.name with
  | false => simp [process_file, hcsv]
  | true =>
      rcases hcase with h | h | h | h
      · rw [hcsv] at h; cases h
      · simp [process_file, hcsv, h]
      · cases he : f.emptyData <;> simp [process_file, hcsv, he, h]
      · cases he : f.emptyData <;> cases hp : f.parserError <;>
          simp [process_file, hcsv, he, hp, h]

lemma process_file_error (dfs : Dfs) (f : ReportFile)
    (hcsv : endsWithCsv f.name = true) (he : f.emptyData = false)
    (hp : f.parserError = false) (hs : f.sizeZero = false)
    (hd : parseDateField (dateField (headerValues f.headerLines)) = none) :
    process_file dfs f = .error "DateParseError" := by
  simp [process_file, hcsv, he, hp, hs, hd]

lemma process_file_ok (dfs : Dfs) (f : ReportFile) (d : PDate)
    (hcsv : endsWithCsv f.name = true) (he : f.emptyData = false)
    (hp : f.parserError = false) (hs : f.sizeZero = false)
    (hd : parseDateField (dateField (headerValues f.headerLines)) = some d) :
    process_file dfs f =
      .ok (alist_set dfs d.year (recomputeTestNumbers
        ((alist_get dfs d.year).getD [] ++ [mkRow (headerValues f.headerLines) d]))) := by
  simp [process_file, hcsv, he, hp, hs, hd]

lemma process_file_ok_cases (dfs dfs' : Dfs) (f : ReportFile)
    (h : process_file dfs f = .ok dfs') :
    dfs' = dfs ∨
      ∃ d, parseDateField (dateField (headerValues f.headerLines)) = some d ∧
        dfs' = alist_set dfs d.year (recomputeTestNumbers
          ((alist_get dfs d.year).getD [] ++ [mkRow (headerValues f.headerLines) d])) := by
  cases hcsv : endsWithCsv f.name with
  | false =>
      rw [process_file_skip dfs f (Or.inl hcsv)] at h
      injection h with h
      exact Or.inl h.symm
  | true =>
      cases he : f.emptyData with
      | true =>
          rw [process_file_skip dfs f (Or.inr (Or.inl he))] at h
          injection h with h
          exact Or.inl h.symm
      | false =>
          cases hp : f.parserError with
          | true =>
              rw [process_file_skip dfs f (Or.inr (Or.inr (Or.inl hp)))] at h
              injection h with h
              exact Or.inl h.symm
          | false =>
              cases hs : f.sizeZero with
              | true =>
                  rw [process_file_skip dfs f (Or.inr (Or.inr (Or.inr hs)))] at h
                  injection h with h
                  exact Or.inl h.symm
              | false =>
                  cases hd : parseDateField (dateField (headerValues f.headerLines)) with
                  | none =>
                      rw [process_file_error dfs f hcsv he hp hs hd] at h
                      cases h
                  | some d =>
                      rw [process_file_ok dfs f d hcsv he hp hs hd] at h
                      injection h with h
                      exact Or.inr ⟨d, rfl, h.symm⟩

lemma TNInv_process_file (dfs dfs' : Dfs) (f : ReportFile)
    (h0 : TNInv dfs) (h : process_file dfs f = .ok dfs') : TNInv dfs' := by
  rcases process_file_ok_cases dfs dfs' f h with heq | ⟨d, _, heq⟩
  · subst heq; exact h0
  · subst heq
    intro y r hr
    by_cases hy : y = d.year
    · subst hy
      rw [alist_get_set_self] at hr ⊢
      exact recompute_inv _ r hr
    · rw [alist_get_set_ne _ _ _ _ hy] at hr ⊢
      exact h0 y r hr

lemma TNInv_process_files (files : List ReportFile) :
    ∀ dfs dfs', TNInv dfs → process_files dfs files = .ok dfs' → TNInv dfs' := by
  induction files with
  | nil =>
      intro dfs dfs' h0 h
      unfold process_files at h
      injection h with h
      subst h
      exact h0
  | cons f fs ih =>
      intro dfs dfs' h0 h
      unfold process_files at h
      cases hpf : process_file dfs f with
      | ok d =>
          rw [hpf] at h
          exact ih d dfs' (TNInv_process_file dfs d f h0 hpf) h
      | error e =>
          rw [hpf] at h
          cases h

/-- Claim C2: after every call to process_file completes, for every
year bucket and every record in it, Test Number equals the count of
records in that bucket sharing its exact serial number string, and this
value is identical across all records with that serial number. -/
theorem claim_C2 (dfs dfs' : Dfs) (files : List ReportFile)
    (h0 : TNInv dfs) (h : process_files dfs files = .ok dfs') :
    TNInv dfs' ∧
      ∀ y r1 r2, r1 ∈ (alist_get dfs' y).getD [] → r2 ∈ (alist_get dfs' y).getD [] →
        r1.serialNumber = r2.serialNumber → r1.testNumber = r2.testNumber := by
  have hinv := TNInv_process_files files dfs dfs' h0 h
  refine ⟨hinv, ?_⟩
  intro y r1 r2 h1 h2 hs
  rw [hinv y r1 h1, hinv y r2 h2, hs]

/-- Witness for claim C2: three files sharing serial 42 in year 2023
all end up carrying Test Number 3. -/
theorem claim_C2_witness :
    TNInv sampleDfs3 ∧
      ((alist_get sampleDfs3 2023).getD []).map Row.testNumber =
        [intV 3, intV 3, intV 3] := by
  refine ⟨(claim_C2 [] sampleDfs3 [sampleFileA, sampleFileA2, sampleFileA3]
    TNInv_nil rfl).1, by decide⟩

/-- Claim C1 (counterexample): a file whose header test-date field
cannot be parsed is fatal to the overall run - the same walk without
that file completes, and inserting it makes the whole run abort, so the
date failure is neither caught nor survived. -/
theorem claim_C1_counterexample :
    exceptIsOk (process_files [] [sampleFileA, sampleFileA2]) = true ∧
      exceptIsOk (process_files [] [sampleFileA, badDateFile, sampleFileA2]) = false :=
  ⟨rfl, rfl⟩

/-- Claim C1 (amended): empty-file, body-parse and size checks are
caught inside per-file processing, the file is skipped and the walk
continues unchanged; but an unparseable header test-date raises out of
process_file with no enclosing handler, aborting the whole run. -/
theorem claim_C1_amended (dfs : Dfs) (f : ReportFile) :
    ((endsWithCsv f.name = false ∨ f.emptyData = true ∨ f.parserError = true ∨
        f.sizeZero = true) →
      process_file dfs f = .ok dfs ∧
        ∀ rest, process_files dfs (f :: rest) = process_files dfs rest) ∧
    (endsWithCsv f.name = true → f.emptyData = false → f.parserError = false →
      f.sizeZero = false →
      parseDateField (dateField (headerValues f.headerLines)) = none →
      ∀ rest, process_files dfs (f :: rest) = .error "DateParseError") := by
  constructor
  · intro hcase
    have hskip := process_file_skip dfs f hcase
    exact ⟨hskip, fun rest => by simp only [process_files, hskip]⟩
  · intro hcsv he hp hs hd rest
    simp only [process_files, process_file_error dfs f hcsv he hp hs hd]

/-- Witness for claim C1 (amended): an empty file is skipped with the
walk continuing, while the bad-date file aborts the run. -/
theorem claim_C1_witness :
    (process_file [] emptyFile = .ok [] ∧
      process_files [] [emptyFile] = process_files [] []) ∧
    process_files [] [badDateFile] = .error "DateParseError" := by
  refine ⟨?_, ?_⟩
  · have h := (claim_C1_amended [] emptyFile).1 (Or.inr (Or.inl rfl))
    exact ⟨h.1, h.2 []⟩
  · exact (claim_C1_amended [] badDateFile).2 rfl rfl rfl rfl (by decide) []

/-- Claim C9: a successfully processed report file appends exactly one
summary record to its year bucket (the other year buckets are
untouched), and the per-row comments computed from the body result
column do not influence the outcome at all. -/
theorem claim_C9 (dfs : Dfs) (f : ReportFile) (d : PDate)
    (hcsv : endsWithCsv f.name = true) (he : f.emptyData = false)
    (hp : f.parserError = false) (hs : f.sizeZero = false)
    (hd : parseDateField (dateField (headerValues f.headerLines)) = some d) :
    (∃ dfs', process_file dfs f = .ok dfs' ∧
      ((alist_get dfs' d.year).getD []).length =
        ((alist_get dfs d.year).getD []).length + 1 ∧
      ∀ y, y ≠ d.year → alist_get dfs' y = alist_get dfs y) ∧
    ∀ results, process_file dfs { f with bodyResults := results } = process_file dfs f := by
  constructor
  · refine ⟨_, process_file_ok dfs f d hcsv he hp hs hd, ?_, ?_⟩
    · rw [alist_get_set_self]
      show (recomputeTestNumbers _).length = _
      unfold recomputeTestNumbers
      rw [List.length_map, List.length_append]
      rfl
    · intro y hy
      exact alist_get_set_ne dfs d.year y _ hy
  · intro results
    rw [process_file_ok dfs { f with bodyResults := results } d hcsv he hp hs hd,
      process_file_ok dfs f d hcsv he hp hs hd]

/-- Witness for claim C9: processing the sample file from an empty
accumulator adds exactly one record to the 2023 bucket, leaves every
other year empty, and replacing the body results changes nothing. -/
theorem claim_C9_witness :
    (∃ dfs', process_file [] sampleFileA = .ok dfs' ∧
      ((alist_get dfs' 2023).getD []).length =
        ((alist_get ([] : Dfs) 2023).getD []).length + 1 ∧
      ∀ y, y ≠ 2023 → alist_get dfs' y = alist_get ([] : Dfs) y) ∧
    process_file [] { sampleFileA with bodyResults := ["FAILED", "FAILED", "FAILED"] } =
      process_file [] sampleFileA := by
  have h := claim_C9 [] sampleFileA ⟨1, 5, 2023⟩ rfl rfl rfl rfl rfl
  exact ⟨h.1, h.2 ["FAILED", "FAILED", "FAILED"]⟩

/-- Claim C6: the emitted COMMENTS equals the final-inspection phrase
exactly when the overall test-result field (last header row) is the
literal PASSED, and equals FAILED for every other value of that field. -/
theorem claim_C6 (vals : List (Option String)) (d : PDate) :
    ((mkRow vals d).comments = strV "NEEDS TO GO TO FINAL INSPECTION" ↔
      testResultCell vals = strV "PASSED") ∧
    (testResultCell vals ≠ strV "PASSED" → (mkRow vals d).comments = strV "FAILED") := by
  have hc : (mkRow vals d).comments = strV (comments_of (testResultCell vals)) := rfl
  by_cases h : testResultCell vals = strV "PASSED"
  · refine ⟨⟨fun _ => h, fun _ => ?_⟩, fun hne => absurd h hne⟩
    rw [hc]
    unfold comments_of
    rw [if_pos h]
  · have hf : (mkRow vals d).comments = strV "FAILED" := by
      rw [hc]
      unfold comments_of
      rw [if_neg h]
    refine ⟨⟨fun hcom => ?_, fun hp => absurd hp h⟩, fun _ => hf⟩
    rw [hf] at hcom
    exact absurd hcom (by decide)

/-- Witness for claim C6: the PASSED sample gets the final-inspection
phrase and the FAILED sample gets FAILED. -/
theorem claim_C6_witness :
    ((mkRow (headerValues hdrA) ⟨1, 5, 2023⟩).comments =
        strV "NEEDS TO GO TO FINAL INSPECTION" ↔
      testResultCell (headerValues hdrA) = strV "PASSED") ∧
    (mkRow (headerValues hdrA2) ⟨2, 10, 2023⟩).comments = strV "FAILED" :=
  ⟨(claim_C6 (headerValues hdrA) ⟨1, 5, 2023⟩).1,
   (claim_C6 (headerValues hdrA2) ⟨2, 10, 2023⟩).2 (by decide)⟩

/-! ### Duplicate-dropping lemmas -/

lemma mem_drop_dup_aux (l : List Row) :
    ∀ seen r, r ∈ drop_dup_aux seen l ↔ r ∈ l ∧ r ∉ seen := by
  induction l with
  | nil => intro seen r; simp [drop_dup_aux]
  | cons x xs ih =>
      intro seen r
      unfold drop_dup_aux
      by_cases hx : x ∈ seen
      · rw [if_pos hx, ih]
        constructor
        · rintro ⟨hr, hs⟩
          exact ⟨List.mem_cons_of_mem _ hr, hs⟩
        · rintro ⟨hr, hs⟩
          rcases List.mem_cons.mp hr with rfl | hr
          · exact absurd hx hs
          · exact ⟨hr, hs⟩
      · rw [if_neg hx]
        constructor
        · intro hmem
          rcases List.mem_cons.mp hmem with rfl | hmem
          · exact ⟨List.mem_cons_self r xs, hx⟩
          · rcases (ih (x :: seen) r).mp hmem with ⟨hr, hs⟩
            exact ⟨List.mem_cons_of_mem _ hr,
              fun hc => hs (List.mem_cons_of_mem _ hc)⟩
        · rintro ⟨hr, hs⟩
          rcases List.mem_cons.mp hr with rfl | hr
          · exact List.mem_cons_self r _
          · by_cases hrx : r = x
            · subst hrx
              exact List.mem_cons_self r _
            · refine List.mem_cons_of_mem _ ((ih (x :: seen) r).mpr ⟨hr, ?_⟩)
              intro hc
              rcases List.mem_cons.mp hc with h1 | h1
              · exact hrx h1
              · exact hs h1

lemma nodup_drop_dup_aux (l : List Row) : ∀ seen, (drop_dup_aux seen l).Nodup := by
  induction l with
  | nil => intro seen; simp [drop_dup_aux]
  | cons x xs ih =>
      intro seen
      unfold drop_dup_aux
      by_cases hx : x ∈ seen
      · rw [if_pos hx]
        exact ih seen
      · rw [if_neg hx]
        refine List.nodup_cons.mpr ⟨?_, ih (x :: seen)⟩
        intro hc
        exact ((mem_drop_dup_aux xs (x :: seen) x).mp hc).2 (List.mem_cons_self x seen)

/-- Claim C3 (counterexample): running save_to_csv a second time with
the same batch against the file produced by the first run changes the
file - the first run leaves 2 rows for 2023, the second leaves 4,
because reconciliation and the CSV round trip turn the string serial
into an integer so the re-accumulated rows no longer compare equal. -/
theorem claim_C3_counterexample :
    save_to_csv sampleDfs (save_to_csv sampleDfs []) ≠ save_to_csv sampleDfs [] ∧
      ((alist_get (save_to_csv sampleDfs []) 2023).getD []).length = 2 ∧
      ((alist_get (save_to_csv sampleDfs (save_to_csv sampleDfs [])) 2023).getD []).length = 4 := by
  refine ⟨by decide, by decide, by decide⟩

/-- Claim C3 (amended): the merge step itself is duplicate-free - the
dataframe written for a year with an existing file drops rows equal in
all columns, keeping exactly the member rows of the concatenation - but
the save as a whole is not idempotent, because the reconciliation and
the CSV round trip change row representations, so a second identical
run appends new, non-identical rows. -/
theorem claim_C3_amended (fs : FS) (y : Nat) (bucket existing : List Row)
    (h : alist_get fs y = some existing) :
    (merged_for fs y bucket).Nodup ∧
      ∀ r, r ∈ merged_for fs y bucket ↔ r ∈ readCsvFile existing ++ bucket := by
  unfold merged_for
  rw [h]
  refine ⟨nodup_drop_dup_aux _ [], fun r => ?_⟩
  show r ∈ drop_dup_aux [] _ ↔ _
  rw [mem_drop_dup_aux]
  simp

/-- Witness for claim C3 (amended): the second-run merge for 2023 is
duplicate-free and holds exactly the rows of the read file plus the
accumulated batch. -/
theorem claim_C3_witness :
    (merged_for (save_to_csv sampleDfs []) 2023 ((alist_get sampleDfs 2023).getD [])).Nodup ∧
      ∀ r, r ∈ merged_for (save_to_csv sampleDfs []) 2023 ((alist_get sampleDfs 2023).getD []) ↔
        r ∈ readCsvFile ((alist_get (save_to_csv sampleDfs []) 2023).getD []) ++
            (alist_get sampleDfs 2023).getD [] :=
  claim_C3_amended (save_to_csv sampleDfs []) 2023 _ _ rfl

/-! ### Reconciliation lemmas -/

lemma mem_insertMissingRows_of_mem (ex : List PyVal) (rows : List Row) :
    ∀ df r, r ∈ df → r ∈ insertMissingRows ex rows df := by
  induction rows with
  | nil => intro df r h; exact h
  | cons x xs ih =>
      intro df r h
      unfold insertMissingRows
      by_cases hx : x.serialNumber ∈ ex
      · rw [if_pos hx]
        exact ih df r h
      · rw [if_neg hx]
        exact ih _ r (List.mem_append_left _ h)

lemma mem_insertMissing_of_mem (dfs : Dfs) :
    ∀ ex df r, r ∈ df → r ∈ insertMissing dfs ex df := by
  induction dfs with
  | nil => intro ex df r h; exact h
  | cons q qs ih =>
      intro ex df r h
      unfold insertMissing
      exact ih ex _ r (mem_insertMissingRows_of_mem ex q.2 df r h)

lemma blank_mem_insertMissingRows (ex : List PyVal) (rows : List Row) :
    ∀ df r, r ∈ rows → r.serialNumber ∉ ex →
      blankRow r.serialNumber ∈ insertMissingRows ex rows df := by
  induction rows with
  | nil => intro df r h; cases h
  | cons x xs ih =>
      intro df r h hex
      unfold insertMissingRows
      rcases List.mem_cons.mp h with rfl | h
      · rw [if_neg hex]
        exact mem_insertMissingRows_of_mem ex xs _ _
          (List.mem_append_right _ (List.mem_cons_self _ _))
      · exact ih _ r h hex

lemma blank_mem_insertMissing (dfs : Dfs) :
    ∀ ex df (p : Nat × List Row) r, p ∈ dfs → r ∈ p.2 → r.serialNumber ∉ ex →
      blankRow r.serialNumber ∈ insertMissing dfs ex df := by
  induction dfs with
  | nil => intro ex df p r hp; cases hp
  | cons q qs ih =>
      intro ex df p r hp hr hex
      unfold insertMissing
      rcases List.mem_cons.mp hp with rfl | hp
      · exact mem_insertMissing_of_mem qs ex _ _
          (blank_mem_insertMissingRows ex p.2 df r hr hex)
      · exact ih ex _ p r hp hr hex

lemma serial_present_insertMissing (dfs : Dfs) :
    ∀ ex df (p : Nat × List Row) r, p ∈ dfs → r ∈ p.2 →
      (∀ v, v ∈ ex → v ∈ df.map Row.serialNumber) →
      r.serialNumber ∈ (insertMissing dfs ex df).map Row.serialNumber := by
  induction dfs with
  | nil => intro ex df p r hp; cases hp
  | cons q qs ih =>
      intro ex df p r hp hr hex
      unfold insertMissing
      rcases List.mem_cons.mp hp with rfl | hp
      · by_cases hexm : r.serialNumber ∈ ex
        · rcases List.mem_map.mp (hex _ hexm) with ⟨rr, hrr, hs⟩
          have h1 := mem_insertMissingRows_of_mem ex p.2 df rr hrr
          have h2 := mem_insertMissing_of_mem qs ex _ rr h1
          exact List.mem_map.mpr ⟨rr, h2, hs⟩
        · have h1 := blank_mem_insertMissingRows ex p.2 df r hr hexm
          have h2 := mem_insertMissing_of_mem qs ex _ _ h1
          exact List.mem_map.mpr ⟨blankRow r.serialNumber, h2, rfl⟩
      · refine ih ex _ p r hp hr ?_
        intro v hv
        rcases List.mem_map.mp (hex v hv) with ⟨rr, hrr, hs⟩
        exact List.mem_map.mpr ⟨rr, mem_insertMissingRows_of_mem ex q.2 df rr hrr, hs⟩

lemma mem_insertMissingRows_cases (ex : List PyVal) (rows : List Row) :
    ∀ df a, a ∈ insertMissingRows ex rows df →
      a ∈ df ∨ ∃ r ∈ rows, a = blankRow r.serialNumber := by
  induction rows with
  | nil => intro df a h; exact Or.inl h
  | cons x xs ih =>
      intro df a h
      unfold insertMissingRows at h
      by_cases hx : x.serialNumber ∈ ex
      · rw [if_pos hx] at h
        rcases ih df a h with h1 | ⟨r, hr, ha⟩
        · exact Or.inl h1
        · exact Or.inr ⟨r, List.mem_cons_of_mem _ hr, ha⟩
      · rw [if_neg hx] at h
        rcases ih _ a h with h1 | ⟨r, hr, ha⟩
        · rcases List.mem_append.mp h1 with h2 | h2
          · exact Or.inl h2
          · rw [List.mem_singleton] at h2
            exact Or.inr ⟨x, List.mem_cons_self _ _, h2⟩
        · exact Or.inr ⟨r, List.mem_cons_of_mem _ hr, ha⟩

lemma mem_insertMissing_cases (dfs : Dfs) :
    ∀ ex df a, a ∈ insertMissing dfs ex df →
      a ∈ df ∨ ∃ p, p ∈ dfs ∧ ∃ r ∈ p.2, a = blankRow r.serialNumber := by
  induction dfs with
  | nil => intro ex df a h; exact Or.inl h
  | cons q qs ih =>
      intro ex df a h
      unfold insertMissing at h
      rcases ih ex _ a h with h1 | ⟨p, hp, hr⟩
      · rcases mem_insertMissingRows_cases ex q.2 df a h1 with h2 | ⟨r, hr, ha⟩
        · exact Or.inl h2
        · exact Or.inr ⟨q, List.mem_cons_self _ _, r, hr, ha⟩
      · exact Or.inr ⟨p, List.mem_cons_of_mem _ hp, hr⟩

/-! ### Sort lemmas -/

lemma mem_insortBy (le : Row → Row → Bool) (r : Row) :
    ∀ l a, a ∈ insortBy le r l ↔ a = r ∨ a ∈ l := by
  intro l
  induction l with
  | nil => intro a; simp [insortBy]
  | cons x xs ih =>
      intro a
      unfold insortBy
      by_cases h : le x r = true
      · rw [if_pos h, List.mem_cons, ih, List.mem_cons]
        tauto
      · rw [if_neg h, List.mem_cons, List.mem_cons]

lemma mem_sortRowsBy (le : Row → Row → Bool) :
    ∀ l a, a ∈ sortRowsBy le l ↔ a ∈ l := by
  intro l
  induction l with
  | nil => intro a; exact Iff.rfl
  | cons x xs ih =>
      intro a
      unfold sortRowsBy
      rw [mem_insortBy, ih, List.mem_cons]

lemma mem_trySort (rows rows' : List Row) (h : trySort rows = some rows') :
    ∀ a, a ∈ rows' ↔ a ∈ rows := by
  unfold trySort at h
  split at h
  · injection h with h
    subst h
    exact fun a => mem_sortRowsBy _ rows a
  · split at h
    · injection h with h
      subst h
      exact fun a => mem_sortRowsBy _ rows a
    · cases h

lemma mem_adding_core (dfs : Dfs) (file : List Row) (a : Row) :
    a ∈ adding_serial_number_core dfs file ↔ a ∈ reconcile_pre_sort dfs file := by
  unfold adding_serial_number_core
  cases h : trySort (reconcile_pre_sort dfs file) with
  | none => exact Iff.rfl
  | some s => exact mem_trySort _ _ h a

/-- Shared presence lemma: the serial number of any record of any year
of the accumulator appears in the serial column of any reconciled
file. -/
lemma serial_present_core (dfs : Dfs) (file : List Row) (p : Nat × List Row) (r : Row)
    (hp : p ∈ dfs) (hr : r ∈ p.2) :
    r.serialNumber ∈ (adding_serial_number_core dfs file).map Row.serialNumber := by
  have hex : ∀ v, v ∈ existing_serials file → v ∈ (read_coerced file).map Row.serialNumber :=
    fun v hv => hv
  have h1 := serial_present_insertMissing dfs (existing_serials file) (read_coerced file)
    p r hp hr hex
  rcases List.mem_map.mp h1 with ⟨a, ha, hs⟩
  exact List.mem_map.mpr ⟨a, (mem_adding_core dfs file a).mpr ha, hs⟩

/-- Claim C4 (counterexample): a persisted serial that fails numeric
coercion is dropped by reconciliation, so the set of serial numbers
across (persisted file, accumulator) shrinks: the pre-existing serial
0000ABC is gone from the final 2023 file. -/
theorem claim_C4_counterexample :
    strV "0000ABC" ∈ ((alist_get fsWithAlphaSerial 2023).getD []).map Row.serialNumber ∧
      strV "0000ABC" ∉
        ((alist_get (save_to_csv sampleDfs fsWithAlphaSerial) 2023).getD []).map
          Row.serialNumber := by
  exact ⟨by decide, by decide⟩

/-- Claim C4 (amended): every serial number present in the in-run
accumulator (any year) is present in the reconciled file, and one
absent from the coerced persisted set is inserted as a blank row
holding only the serial number; however persisted rows whose serial
fails numeric coercion are dropped, so the combined serial set can
still shrink. -/
theorem claim_C4_amended (dfs : Dfs) (file : List Row) (p : Nat × List Row) (r : Row)
    (hp : p ∈ dfs) (hr : r ∈ p.2) :
    r.serialNumber ∈ (adding_serial_number_core dfs file).map Row.serialNumber ∧
      (r.serialNumber ∉ existing_serials file →
        blankRow r.serialNumber ∈ adding_serial_number_core dfs file) := by
  refine ⟨serial_present_core dfs file p r hp hr, fun habs => ?_⟩
  exact (mem_adding_core dfs file _).mpr
    (blank_mem_insertMissing dfs (existing_serials file) (read_coerced file) p r hp hr habs)

/-- Witness for claim C4 (amended): the accumulated serial 0000042 is
present after reconciling an empty file, inserted as a blank row. -/
theorem claim_C4_witness :
    sampleRowA.serialNumber ∈ (adding_serial_number_core sampleDfs []).map Row.serialNumber ∧
      blankRow sampleRowA.serialNumber ∈ adding_serial_number_core sampleDfs [] := by
  have h := claim_C4_amended sampleDfs [] (2023, [sampleRowA]) sampleRowA
    (by decide) (by decide)
  exact ⟨h.1, h.2 (by decide)⟩

/-! ### Save-loop lemmas -/

lemma save_fold_get_notin (dfs : Dfs) :
    ∀ (l : List (Nat × List Row)) (fs : FS) (yB : Nat), (∀ p ∈ l, p.1 ≠ yB) →
      alist_get (l.foldl (save_year_step dfs) fs) yB = alist_get fs yB := by
  intro l
  induction l with
  | nil => intro fs yB _; rfl
  | cons q qs ih =>
      intro fs yB h
      rw [List.foldl_cons, ih _ yB (fun p hp => h p (List.mem_cons_of_mem _ hp))]
      have hq : q.1 ≠ yB := h q (List.mem_cons_self _ _)
      unfold save_year_step
      rw [alist_get_set_ne _ _ _ _ (fun hc => hq hc.symm),
        alist_get_set_ne _ _ _ _ (fun hc => hq hc.symm)]

lemma save_final_file (dfs : Dfs) :
    ∀ (l : List (Nat × List Row)) (fs : FS) (yB : Nat) (bB : List Row),
      (l.map Prod.fst).Nodup → (yB, bB) ∈ l →
      ∃ file, alist_get (l.foldl (save_year_step dfs) fs) yB =
        some (adding_serial_number_core dfs file) := by
  intro l
  induction l with
  | nil => intro fs yB bB _ h; cases h
  | cons q qs ih =>
      intro fs yB bB hnd hmem
      rw [List.map_cons, List.nodup_cons] at hnd
      rw [List.foldl_cons]
      rcases List.mem_cons.mp hmem with heq | hmem
      · have hq1 : q.1 = yB := by rw [← heq]
        have hqs : ∀ p ∈ qs, p.1 ≠ yB := by
          intro p hp hc
          exact hnd.1 (hq1 ▸ hc ▸ List.mem_map_of_mem Prod.fst hp)
        refine ⟨merged_for fs q.1 q.2, ?_⟩
        rw [save_fold_get_notin dfs qs _ yB hqs]
        unfold save_year_step
        rw [hq1] at *
        rw [alist_get_set_self]
      · exact ih _ yB bB hnd.2 hmem

/-- Claim C10: the missing-serial insertion iterates over the batches
of every year of the run, so in a run covering several years a serial
tested only in year A also ends up in year B's reconciled file. -/
theorem claim_C10 (dfs : Dfs) (fs : FS) (yA yB : Nat) (bA bB : List Row) (r : Row)
    (hnd : (dfs.map Prod.fst).Nodup) (hpA : (yA, bA) ∈ dfs) (hr : r ∈ bA)
    (hpB : (yB, bB) ∈ dfs) :
    r.serialNumber ∈ ((alist_get (save_to_csv dfs fs) yB).getD []).map Row.serialNumber := by
  rcases save_final_file dfs dfs fs yB bB hnd hpB with ⟨file, hfile⟩
  unfold save_to_csv
  rw [hfile]
  exact serial_present_core dfs file (yA, bA) r hpA hr

/-- Witness for claim C10: in the two-year run, the serial tested only
in 2023 is present in the persisted 2024 file. -/
theorem claim_C10_witness :
    sampleRowA.serialNumber ∈
      ((alist_get (save_to_csv sampleDfsTwoYears []) 2024).getD []).map Row.serialNumber :=
  claim_C10 sampleDfsTwoYears [] 2023 2024 [sampleRowA]
    ((alist_get sampleDfsTwoYears 2024).getD []) sampleRowA
    (by decide) (by decide) (by decide) (by decide)

/-- Claim C8: a ValueError raised inside the reconciliation try block
leaves the merged file on disk untouched (the reconciliation is
skipped), and a sort failure leaves the reconciled dataframe unsorted
but still written; neither aborts the run. -/
theorem claim_C8 (dfs : Dfs) (file : List Row) :
    adding_serial_number true dfs file = file ∧
      (trySort (reconcile_pre_sort dfs file) = none →
        adding_serial_number false dfs file = reconcile_pre_sort dfs file) ∧
      ∀ sorted, trySort (reconcile_pre_sort dfs file) = some sorted →
        adding_serial_number false dfs file = sorted := by
  refine ⟨rfl, ?_, ?_⟩
  · intro h
    show adding_serial_number_core dfs file = _
    unfold adding_serial_number_core
    rw [h]
  · intro sorted h
    show adding_serial_number_core dfs file = _
    unfold adding_serial_number_core
    rw [h]

/-- Witness for claim C8: with the coercion failure flagged the file is
returned as merged; on the sample data the serial column mixes an
integer with a string, the sort raises, and the reconciled dataframe is
written unsorted. -/
theorem claim_C8_witness :
    adding_serial_number true sampleDfs [sampleRowA] = [sampleRowA] ∧
      adding_serial_number false sampleDfs [sampleRowA] =
        reconcile_pre_sort sampleDfs [sampleRowA] := by
  have h := claim_C8 sampleDfs [sampleRowA]
  exact ⟨h.1, h.2.1 (by decide)⟩

/-! ### Serial-column shape lemmas -/

lemma toNumericCoerce_int_or_nan (v : PyVal) :
    (∃ n, toNumericCoerce v = intV n) ∨ toNumericCoerce v = nanV := by
  cases v with
  | intV n => exact Or.inl ⟨n, rfl⟩
  | nanV => exact Or.inr rfl
  | strV s =>
      cases h : digitsVal s.data with
      | some n =>
          refine Or.inl ⟨Int.ofNat n, ?_⟩
          show (match digitsVal s.data with
            | some n => intV (Int.ofNat n)
            | none => nanV) = intV (Int.ofNat n)
          rw [h]
      | none =>
          refine Or.inr ?_
          show (match digitsVal s.data with
            | some n => intV (Int.ofNat n)
            | none => nanV) = nanV
          rw [h]

lemma read_coerced_serial_int (file : List Row) :
    ∀ r ∈ read_coerced file, ∃ n, r.serialNumber = intV n := by
  intro r hr
  unfold read_coerced at hr
  rcases List.mem_filter.mp hr with ⟨hmem, hpred⟩
  rcases List.mem_map.mp hmem with ⟨r1, _, rfl⟩
  rcases toNumericCoerce_int_or_nan r1.serialNumber with ⟨n, hn⟩ | hn
  · exact ⟨n, hn⟩
  · exfalso
    have : (match toNumericCoerce r1.serialNumber with
        | nanV => false | _ => true) = true := hpred
    rw [hn] at this
    exact Bool.noConfusion this

lemma core_serials_shape (dfs : Dfs) (file : List Row) :
    ∀ v ∈ (adding_serial_number_core dfs file).map Row.serialNumber,
      isIntVal v = true ∨ ∃ p r, p ∈ dfs ∧ r ∈ p.2 ∧ v = r.serialNumber := by
  intro v hv
  rcases List.mem_map.mp hv with ⟨a, ha, rfl⟩
  rw [mem_adding_core] at ha
  rcases mem_insertMissing_cases dfs _ _ a ha with h1 | ⟨p, hp, r, hr, rfl⟩
  · rcases read_coerced_serial_int file a h1 with ⟨n, hn⟩
    rw [hn]
    exact Or.inl rfl
  · exact Or.inr ⟨p, r, hp, hr, rfl⟩

/-- Claim C7 (counterexample): after the first run from an empty output
directory, the reconciled 2023 file holds the serial values 42 (an
integer) and 0000042 (a string) - the missing-serial insertion put the
accumulator's zero-padded string back in as a blank row, so not every
persisted serial value is numeric after reconciliation. -/
theorem claim_C7_counterexample :
    ((alist_get (save_to_csv sampleDfs []) 2023).getD []).map Row.serialNumber =
        [intV 42, strV "0000042"] ∧
      strV "0000042" ∈
        ((alist_get (save_to_csv sampleDfs []) 2023).getD []).map Row.serialNumber ∧
      isIntVal (strV "0000042") = false := by
  exact ⟨by decide, by decide, by decide⟩

/-- Claim C7 (amended): on the initial write of a year with no existing
file the serial column is entirely textual (given the accumulated rows
carry string serials, as mkRow produces); after reconciliation every
persisted serial value is either a Python integer (a coerced persisted
row) or the verbatim string serial of an accumulator record inserted as
a blank row - so the column can mix integers and strings rather than
being entirely numeric. -/
theorem claim_C7_amended (fs : FS) (y : Nat) (bucket : List Row)
    (hnew : alist_get fs y = none)
    (htext : ∀ r ∈ bucket, isStrVal r.serialNumber = true) :
    (∀ v ∈ (merged_for fs y bucket).map Row.serialNumber, isStrVal v = true) ∧
      ∀ dfs file v, v ∈ (adding_serial_number_core dfs file).map Row.serialNumber →
        isIntVal v = true ∨ ∃ p r, p ∈ dfs ∧ r ∈ p.2 ∧ v = r.serialNumber := by
  constructor
  · intro v hv
    unfold merged_for at hv
    rw [hnew] at hv
    rcases List.mem_map.mp hv with ⟨r, hr, rfl⟩
    exact htext r hr
  · intro dfs file v hv
    exact core_serials_shape dfs file v hv

/-- Witness for claim C7 (amended): the initial 2023 write is all
textual, and every serial of the reconciled file is an integer or an
accumulator string. -/
theorem claim_C7_witness :
    (∀ v ∈ (merged_for [] 2023 ((alist_get sampleDfs 2023).getD [])).map Row.serialNumber,
        isStrVal v = true) ∧
      ∀ v ∈ (adding_serial_number_core sampleDfs
            (merged_for [] 2023 ((alist_get sampleDfs 2023).getD []))).map Row.serialNumber,
        isIntVal v = true ∨ ∃ p r, p ∈ sampleDfs ∧ r ∈ p.2 ∧ v = r.serialNumber := by
  have h := claim_C7_amended [] 2023 ((alist_get sampleDfs 2023).getD []) rfl (by decide)
  exact ⟨h.1, h.2 sampleDfs _⟩

/-! ### Serial-number formatting lemmas -/

lemma zfillChars_digits7 (cs : List Char) (hne : cs ≠ [])
    (hd : cs.all Char.isDigit = true) (hle : cs.length ≤ 7) :
    zfillChars cs 7 = List.replicate (7 - cs.length) '0' ++ cs := by
  unfold zfillChars
  by_cases h7 : 7 ≤ cs.length
  · rw [if_pos h7]
    have hlen : cs.length = 7 := le_antisymm hle h7
    rw [hlen]
    simp
  · rw [if_neg h7, if_neg ?hsign]
    case hsign =>
      rcases cs with _ | ⟨c, rest⟩
      · exact absurd rfl hne
      · simp only [List.headD_cons]
        have hc : c.isDigit = true := by
          simp only [List.all_cons, Bool.and_eq_true] at hd
          exact hd.1
        rintro (rfl | rfl)
        · exact absurd hc (by decide)
        · exact absurd hc (by decide)

lemma replicate_zero_all_digit (n : Nat) :
    (List.replicate n '0').all Char.isDigit = true := by
  rw [List.all_eq_true]
  intro c hc
  rw [List.eq_of_mem_replicate hc]
  decide

/-- Claim C5 (counterexample): a report whose serial-number header line
has no colon-space separator is processed to completion, yet its
formatted serial number is 000None - seven characters, but neither the
zero string 0000000 the claim requires for an absent value nor a
numeric string. -/
theorem claim_C5_counterexample :
    formatted_serial_num (headerValues hdrNoSep) = "000None" ∧
      ("000None" : String) ≠ "0000000" ∧
      ("000None" : String).data.all Char.isDigit = false ∧
      exceptIsOk (process_files [] [fileNoSep]) = true := by
  exact ⟨by decide, by decide, by decide, by decide⟩

/-- Claim C5 (amended): the header serial field is rendered with str()
and zero-filled to width 7, so a digit-string value of at most 7 digits
yields exactly 7 characters, numeric, left-padded with zeros; a missing
field (header shorter than 4 rows) formats to 0000000; but a field
present with an absent value (no separator on its line) renders as None
and formats to 000None. -/
theorem claim_C5_amended :
    (∀ (vals : List (Option String)) (s : String),
        vals.get? 3 = some (some s) → s.data ≠ [] →
        s.data.all Char.isDigit = true → s.data.length ≤ 7 →
        formatted_serial_num vals =
            String.mk (List.replicate (7 - s.data.length) '0' ++ s.data) ∧
          (formatted_serial_num vals).data.length = 7 ∧
          (formatted_serial_num vals).data.all Char.isDigit = true) ∧
      (∀ vals : List (Option String), vals.get? 3 = none →
        formatted_serial_num vals = "0000000") ∧
      (∀ vals : List (Option String), vals.get? 3 = some none →
        formatted_serial_num vals = "000None") := by
  refine ⟨?_, ?_, ?_⟩
  · intro vals s h hne hd hle
    have hsf : serialField vals = s := by
      unfold serialField
      rw [h]
      rfl
    unfold formatted_serial_num
    rw [hsf]
    unfold zfill
    rw [zfillChars_digits7 s.data hne hd hle]
    refine ⟨rfl, ?_, ?_⟩
    · show (List.replicate (7 - s.data.length) '0' ++ s.data).length = 7
      rw [List.length_append, List.length_replicate]
      omega
    · show (List.replicate (7 - s.data.length) '0' ++ s.data).all Char.isDigit = true
      rw [List.all_append, replicate_zero_all_digit, hd]
      rfl
  · intro vals h
    unfold formatted_serial_num serialField
    rw [h]
    decide
  · intro vals h
    unfold formatted_serial_num serialField
    rw [h]
    decide

/-- Witness for claim C5 (amended): the sample serial 42 formats to
seven numeric characters padded with five zeros, and headers without a
fourth row format to 0000000 while the separator-less header formats to
000None. -/
theorem claim_C5_witness :
    (formatted_serial_num (headerValues hdrA) =
        String.mk (List.replicate (7 - "42".data.length) '0' ++ "42".data) ∧
      (formatted_serial_num (headerValues hdrA)).data.length = 7 ∧
      (formatted_serial_num (headerValues hdrA)).data.all Char.isDigit = true) ∧
      formatted_serial_num [] = "0000000" ∧
      formatted_serial_num (headerValues hdrNoSep) = "000None" :=
  ⟨claim_C5_amended.1 (headerValues hdrA) "42" (by decide) (by decide) (by decide) (by decide),
   claim_C5_amended.2.1 [] rfl,
   claim_C5_amended.2.2 (headerValues hdrNoSep) (by decide)⟩
